import Mathlib

/-!
Verification of the CodeExecution control plane: the worker-side executor
(`src/worker.ts`), the orchestrator's scaling and submission logic
(`orchestrator.ts`), the batch submission endpoint (`src/api.ts`) and the
Redis job queue. Effectful steps (temp dir creation, file write, child
process execution) are modelled by an environment record supplying the
outcome of each step; JavaScript numbers are modelled by `Int`/`ℚ`, and a
possibly-`NaN` float by `Option ℚ`.
-/

namespace CodeExecution

/-- A JavaScript value as it can appear in the `code` field of a thrown
error: `undefined`/`null`, a number (process exit code), or a string
(Node fs errors carry string codes such as "ENOENT"). -/
inductive JsVal where
  | undef : JsVal
  | num : Int → JsVal
  | str : String → JsVal
deriving DecidableEq, Repr

/-- JavaScript truthiness of a `JsVal`: `0`, `""` and `undefined` are falsy. -/
def JsVal.truthy : JsVal → Bool
  | .undef => false
  | .num n => n != 0
  | .str s => s != ""

/-- JavaScript `a || b` on error codes (`error.code || 1`). -/
def jsOrVal (a b : JsVal) : JsVal := if a.truthy then a else b

/-- JavaScript `a || b` where `a` is a possibly-undefined number
(`timeout || config.timeout`): `0` and `undefined` are falsy. -/
def jsOrNum (a : Option Int) (b : Int) : Int :=
  match a with
  | none => b
  | some n => if n = 0 then b else n

/-- JavaScript `a || b` where `a` is a possibly-undefined string
(`error.stderr || error.message`): `""` and `undefined` are falsy. -/
def jsOrStr (a : Option String) (b : String) : String :=
  match a with
  | none => b
  | some s => if s = "" then b else s

/-- The `JobData` interface of `worker.ts`: the deserialized queue entry. -/
structure JobData where
  source_code : String
  language_id : Int
  stdin : Option String := none
  token : String
  callback_url : Option String := none
  timeout : Option Int := none
  memory_limit : Option Int := none
deriving DecidableEq, Repr

/-- The `ExecutionResult` interface of `worker.ts`. `execution_time` is in
milliseconds (a JS float, modelled as `ℚ`); `exit_code` can hold a number
or, through `error.code || 1`, a string errno. -/
structure ExecutionResult where
  stdout : Option String := none
  stderr : Option String := none
  status : String
  execution_time : Option ℚ := none
  exit_code : Option JsVal := none
deriving DecidableEq, Repr

/-- The `LanguageConfig` interface of `worker.ts`: a language recipe. -/
structure LanguageConfig where
  extension : String
  compile : Option (String → String) := none
  execute : String → String
  timeout : Int

/-- JavaScript `s.endsWith(suffix)`, computed on the character lists. -/
def jsEndsWith (s suffix : String) : Bool :=
  suffix.toList.isSuffixOf s.toList

/-- JavaScript `String.prototype.replace` with a string pattern: replaces
the first occurrence only. -/
def jsReplace (s pat rep : String) : String :=
  match s.splitOn pat with
  | [] => s
  | [t] => t
  | t :: rest => t ++ rep ++ String.intercalate pat rest

/-- Node `path.basename(p, ext)`: last path component with `ext` stripped. -/
def pathBasename (p ext : String) : String :=
  let base := ((p.splitOn "/").getLast?).getD p
  if jsEndsWith base ext then base.dropRight ext.length else base

/-- Node `path.dirname(p)` (simplified to the slash-separated case used
by the Java recipe). -/
def pathDirname (p : String) : String :=
  match (p.splitOn "/").dropLast with
  | [] => "."
  | parts => String.intercalate "/" parts

/-- Language 71 (Python) recipe from `languageConfigs` in `worker.ts`. -/
def pythonConfig : LanguageConfig :=
  { extension := "py", execute := fun filepath => "python3 " ++ filepath, timeout := 10000 }

/-- Language 63 (JavaScript) recipe from `languageConfigs` in `worker.ts`. -/
def javascriptConfig : LanguageConfig :=
  { extension := "js", execute := fun filepath => "node " ++ filepath, timeout := 10000 }

/-- Language 50 (C) recipe from `languageConfigs` in `worker.ts`. -/
def cConfig : LanguageConfig :=
  { extension := "c",
    compile := some (fun filepath => "gcc " ++ filepath ++ " -o " ++ jsReplace filepath ".c" ""),
    execute := fun filepath => jsReplace filepath ".c" "",
    timeout := 10000 }

/-- Language 62 (Java) recipe from `languageConfigs` in `worker.ts`. -/
def javaConfig : LanguageConfig :=
  { extension := "java",
    compile := some (fun filepath => "javac " ++ filepath),
    execute := fun filepath =>
      "java -cp " ++ pathDirname filepath ++ " " ++ pathBasename filepath ".java",
    timeout := 15000 }

/-- The `languageConfigs` table of `worker.ts`, keyed by `language_id`. -/
def languageConfigs (language_id : Int) : Option LanguageConfig :=
  if language_id = 71 then some pythonConfig
  else if language_id = 63 then some javascriptConfig
  else if language_id = 50 then some cConfig
  else if language_id = 62 then some javaConfig
  else none

/-- The captured streams of a child process whose promise resolved
(i.e. the command exited 0). -/
structure ExecOut where
  stdout : String
  stderr : String
deriving DecidableEq, Repr

/-- A thrown JavaScript error as the executor's catch block inspects it:
`code` (exit code for `execAsync` rejections, errno string for fs errors),
the captured streams `execAsync` attaches, and `message`. -/
structure JsError where
  code : JsVal
  stdout : Option String := none
  stderr : Option String := none
  message : String
deriving DecidableEq, Repr

/-- Outcomes of the executor's effectful steps for one job, in program
order: `fs.mkdtemp`, `fs.writeFile`, `execAsync` of the compile command,
`execAsync` of the execute command (`.error e` models a rejected promise),
plus the `process.hrtime` readings taken after the compile step, after the
execute step, and inside the catch block. -/
structure ExecEnv where
  mkdtempRes : Except JsError String
  writeFileRes : Except JsError Unit
  compileRes : Except JsError ExecOut
  execRes : Except JsError ExecOut
  compileHr : Int × Int := (0, 0)
  execHr : Int × Int := (0, 0)
  catchHr : Int × Int := (0, 0)

/-- Milliseconds of an hrtime pair: `seconds * 1000 + nanoseconds / 1000000`. -/
def hrMs (hr : Int × Int) : ℚ :=
  (hr.1 : ℚ) * 1000 + (hr.2 : ℚ) / 1000000

/-- Model of `parseFloat(x.toFixed(2))`: round to two decimal places. -/
def round2 (q : ℚ) : ℚ := (⌊q * 100 + 1 / 2⌋ : ℚ) / 100

/-- Which filesystem effects ran for a job: whether the temp directory was
created, the source file written, the temp directory removed in the
`finally` block, and the composed shell command passed to `execAsync` in
the execute phase (if that phase was reached). -/
structure ExecTrace where
  tempDirCreated : Bool
  fileWritten : Bool
  tempDirRemoved : Bool
  execCommand : Option String
deriving DecidableEq, Repr

/-- The `const effectiveTimeout = timeout || config.timeout` of `executeCode`. -/
def effectiveTimeoutOf (job : JobData) (config : LanguageConfig) : Int :=
  jsOrNum job.timeout config.timeout

/-- The `const effectiveMemoryLimit = memory_limit || 512` of `executeCode`. -/
def effectiveMemoryLimitOf (job : JobData) : Int :=
  jsOrNum job.memory_limit 512

/-- The shell command composed in the execute phase of `executeCode`:
`bash -c "ulimit -v <mem*1024> && timeout <ceil(timeout/1000)>s <execute(file)>"`. -/
def buildExecCommand (job : JobData) (config : LanguageConfig) (tempFilePath : String) : String :=
  let effectiveMemoryLimit := effectiveMemoryLimitOf job
  let timeoutInSeconds : Int := ⌈(effectiveTimeoutOf job config : ℚ) / 1000⌉
  "bash -c \"ulimit -v " ++ toString (effectiveMemoryLimit * 1024) ++ " && timeout " ++
    toString timeoutInSeconds ++ "s " ++ config.execute tempFilePath ++ "\""

/-- The compile phase of `executeCode`: skipped when the recipe has no
compile template; otherwise runs the compile command, and when the command
exits 0 but printed anything on stderr, produces the early
`compilation_error` return. A rejected compile promise propagates to the
catch block (`.error`). -/
def compilePhase (config : LanguageConfig) (env : ExecEnv) : Except JsError (Option ExecutionResult) :=
  match config.compile with
  | none => .ok none
  | some _ =>
    match env.compileRes with
    | .error e => .error e
    | .ok out =>
      let compileTime := hrMs env.compileHr
      if out.stderr = "" then .ok none
      else .ok (some { stderr := some out.stderr, status := "compilation_error",
                       execution_time := some (round2 compileTime), exit_code := some (.num 1) })

/-- The catch block of `executeCode`: classifies a thrown error by its
`code` (124 → timeout with `execution_time = effectiveTimeout`, 137 →
memory limit exceeded, anything else → runtime_error with
`exit_code = error.code || 1` and `stderr = error.stderr || error.message`).
The hrtime reading is taken only when `error.code` is truthy. -/
def catchHandler (effectiveTimeout : Int) (env : ExecEnv) (e : JsError) : ExecutionResult :=
  let hr := if e.code.truthy then env.catchHr else ((0 : Int), (0 : Int))
  let executionTime := hrMs hr
  if e.code = .num 124 then
    { stderr := some "Execution timed out", status := "timeout",
      execution_time := some ((effectiveTimeout : ℚ)), exit_code := some (.num 124) }
  else if e.code = .num 137 then
    { stderr := some "Memory limit exceeded", status := "memory_limit_exceeded",
      execution_time := some (round2 executionTime), exit_code := some (.num 137) }
  else
    { stdout := e.stdout, stderr := some (jsOrStr e.stderr e.message), status := "runtime_error",
      execution_time := some (round2 executionTime), exit_code := some (jsOrVal e.code (.num 1)) }

/-- The `Worker.executeCode` method of `worker.ts`, paired with the trace of its
filesystem effects. Unknown `language_id` returns before any effect; the
`try` block creates the temp dir, writes `Main.<ext>`, runs the optional
compile phase and then the bounded execute command; every thrown error is
routed to `catchHandler`; the `finally` block removes the temp dir
whenever it was created. -/
def executeCode (job : JobData) (env : ExecEnv) : ExecutionResult × ExecTrace :=
  match languageConfigs job.language_id with
  | none =>
    ({ stderr := some ("Unsupported language_id: " ++ toString job.language_id),
       status := "error", exit_code := some (.num 1) },
     { tempDirCreated := false, fileWritten := false, tempDirRemoved := false, execCommand := none })
  | some config =>
    let effectiveTimeout := effectiveTimeoutOf job config
    match env.mkdtempRes with
    | .error e =>
      (catchHandler effectiveTimeout env e,
       { tempDirCreated := false, fileWritten := false, tempDirRemoved := false, execCommand := none })
    | .ok tempDir =>
      let tempFilePath := tempDir ++ "/Main." ++ config.extension
      match env.writeFileRes with
      | .error e =>
        (catchHandler effectiveTimeout env e,
         { tempDirCreated := true, fileWritten := false, tempDirRemoved := true, execCommand := none })
      | .ok _ =>
        match compilePhase config env with
        | .error e =>
          (catchHandler effectiveTimeout env e,
           { tempDirCreated := true, fileWritten := true, tempDirRemoved := true, execCommand := none })
        | .ok (some result) =>
          (result,
           { tempDirCreated := true, fileWritten := true, tempDirRemoved := true, execCommand := none })
        | .ok none =>
          let command := buildExecCommand job config tempFilePath
          match env.execRes with
          | .error e =>
            (catchHandler effectiveTimeout env e,
             { tempDirCreated := true, fileWritten := true, tempDirRemoved := true,
               execCommand := some command })
          | .ok out =>
            ({ stdout := some out.stdout, stderr := some out.stderr, status := "completed",
               execution_time := some (round2 (hrMs env.execHr)), exit_code := some (.num 0) },
             { tempDirCreated := true, fileWritten := true, tempDirRemoved := true,
               execCommand := some command })

/-- The webhook body posted by `Worker.start`:
`{ token: job.token, ...result }`. -/
structure WebhookPayload where
  token : String
  stdout : Option String
  stderr : Option String
  status : String
  execution_time : Option ℚ
  exit_code : Option JsVal
deriving DecidableEq, Repr

/-- Build the webhook payload for a job and its execution result. -/
def webhookPayload (job : JobData) (result : ExecutionResult) : WebhookPayload :=
  { token := job.token, stdout := result.stdout, stderr := result.stderr,
    status := result.status, execution_time := result.execution_time,
    exit_code := result.exit_code }

/-! ## Orchestrator: scaling (`orchestrator.ts`) -/

/-- The `ScalingConfig` interface of `orchestrator.ts`. -/
structure ScalingConfig where
  minPods : Nat
  maxPods : Nat
  jobsPerPod : Nat
  checkIntervalMs : Nat
deriving DecidableEq, Repr

/-- One entry of the metrics list returned by `topPods`: a pod name and
its CPU usage string (e.g. "100m", "250000000n"). -/
structure PodMetric where
  name : String
  cpu : String
deriving DecidableEq, Repr

/-- JavaScript `parseInt` on a CPU usage string: the maximal digit prefix,
`none` modelling `NaN` when the string does not start with a digit. -/
def jsParseInt (s : String) : Option Int :=
  let digits := s.toList.takeWhile Char.isDigit
  if digits.isEmpty then none
  else some (digits.foldl (fun n c => n * 10 + ((c.toNat : Int) - 48)) 0)

/-- The `Orchestrator.parseCpu` method: suffix `n` divides by 1e9, `u` by 1e6, `m`
by 1e3, otherwise the parsed value is used as-is. `none` models `NaN`. -/
def parseCpu (cpu : String) : Option ℚ :=
  if jsEndsWith cpu "n" then (jsParseInt cpu).map (fun v => (v : ℚ) / 1000000000)
  else if jsEndsWith cpu "u" then (jsParseInt cpu).map (fun v => (v : ℚ) / 1000000)
  else if jsEndsWith cpu "m" then (jsParseInt cpu).map (fun v => (v : ℚ) / 1000)
  else (jsParseInt cpu).map (fun v => (v : ℚ))

/-- Float addition where `none` models `NaN` (which propagates). -/
def nanAdd (a b : Option ℚ) : Option ℚ :=
  match a, b with
  | some x, some y => some (x + y)
  | _, _ => none

/-- Float comparison `a > t` where `none` models `NaN` (always false). -/
def nanGt (a : Option ℚ) (t : ℚ) : Bool :=
  match a with
  | some x => t < x
  | none => false

/-- The fold `metrics.reduce((sum, pod) => sum + parseCpu(pod.cpu), 0)`. -/
def totalCpu (metrics : List PodMetric) : Option ℚ :=
  metrics.foldl (fun sum pod => nanAdd sum (parseCpu pod.cpu)) (some 0)

/-- JavaScript `Math.ceil(a / b)` on non-negative integers (for `b > 0`). -/
def jsCeilDiv (a b : Nat) : Nat := (a + b - 1) / b

/-- The desired replica count computed by one `scaleWorkers` tick from the
queue length, current pod count and the pod metrics list: the clamped
backlog-based count, bumped by one (clamped by `maxPods`) when the metrics
list is non-empty and the average CPU per pod exceeds 0.8 cores. -/
def desiredPods (config : ScalingConfig) (queueLength currentPods : Nat)
    (metrics : List PodMetric) : Nat :=
  let base := max config.minPods (min config.maxPods (jsCeilDiv queueLength config.jobsPerPod))
  if metrics.length > 0 then
    let avgCpuPerPod : Option ℚ :=
      if currentPods > 0 then (totalCpu metrics).map (fun t => t / (currentPods : ℚ))
      else some 0
    if nanGt avgCpuPerPod (8 / 10) then min config.maxPods (base + 1) else base
  else base

/-- One `scaleWorkers` tick's reconcile action: `some d` when the
deployment is patched to `d` replicas, `none` when
`currentPods === desiredPods` and the tick is a no-op. -/
def scaleTick (config : ScalingConfig) (queueLength currentPods : Nat)
    (metrics : List PodMetric) : Option Nat :=
  let desired := desiredPods config queueLength currentPods metrics
  if currentPods ≠ desired then some desired else none

/-- Modelled from the spec for comparison with `parseCpu`: "parsing suffix
'n' as ÷1e9, 'u' as ÷1e6, 'm' as ÷1e3, no suffix as-is". -/
def specParseCpu (cpu : String) : Option ℚ :=
  if jsEndsWith cpu "n" then (jsParseInt cpu).map (fun v => (v : ℚ) / 1000000000)
  else if jsEndsWith cpu "u" then (jsParseInt cpu).map (fun v => (v : ℚ) / 1000000)
  else if jsEndsWith cpu "m" then (jsParseInt cpu).map (fun v => (v : ℚ) / 1000)
  else (jsParseInt cpu).map (fun v => (v : ℚ))

/-- The `clamp(x, lo, hi)` operation as the spec uses it. -/
def specClamp (x lo hi : Nat) : Nat := max lo (min hi x)

/-- Modelled from the spec's words, for comparison with `desiredPods`:
`baseline = clamp(ceil(L / jobs_per_pod), min_pods, max_pods)`; if the
metrics list is non-empty and the average CPU (sum of parsed CPU values
divided by P) exceeds 0.8, the result is `min(max_pods, baseline + 1)`. -/
def specDesiredPods (config : ScalingConfig) (queueLength currentPods : Nat)
    (metrics : List PodMetric) : Nat :=
  let baseline := specClamp (jsCeilDiv queueLength config.jobsPerPod) config.minPods config.maxPods
  let avg : Option ℚ :=
    (metrics.foldl (fun sum pod => nanAdd sum (specParseCpu pod.cpu)) (some 0)).map
      (fun t => t / (currentPods : ℚ))
  if metrics ≠ [] ∧ nanGt avg (8 / 10) then min config.maxPods (baseline + 1) else baseline

/-! ## Orchestrator: queue and submission (`orchestrator.ts`, `api.ts`) -/

/-- Redis `LPUSH`: prepend at the head (left end) of the list. -/
def lPush (q : List α) (v : α) : List α := v :: q

/-- Redis `BRPOP` on a non-empty list: remove and return the element at
the tail (right end); on an empty list the call blocks (`none`). -/
def brPop (q : List α) : Option (α × List α) :=
  match q.getLast? with
  | none => none
  | some x => some (x, q.dropLast)

/-- The sequence of elements obtained by repeatedly applying `brPop`
until the queue is empty (the order a draining worker observes). -/
def popOrderAux : Nat → List α → List α
  | 0, _ => []
  | fuel + 1, q =>
    match brPop q with
    | none => []
    | some (x, rest) => x :: popOrderAux fuel rest

/-- The drain order of a queue. -/
def popOrder (q : List α) : List α := popOrderAux q.length q

/-- The `Submission` interface of `api.ts`: fields arrive from JSON and
may each be absent. -/
structure Submission where
  source_code : Option String := none
  language_id : Option Int := none
  problem_id : Option String := none
  callback_url : Option String := none
  timeout : Option Int := none
  memory_limit : Option Int := none
  expected_output : Option String := none
deriving DecidableEq, Repr

/-- JavaScript truthiness of a possibly-absent string. -/
def truthyStr : Option String → Bool
  | none => false
  | some s => s != ""

/-- JavaScript truthiness of a possibly-absent number. -/
def truthyInt : Option Int → Bool
  | none => false
  | some n => n != 0

/-- The validation test of the batch handler:
`!submission.source_code || !submission.language_id || !submission.problem_id`. -/
def submissionInvalid (s : Submission) : Bool :=
  !truthyStr s.source_code || !truthyInt s.language_id || !truthyStr s.problem_id

/-- A serialized queue entry (`JSON.stringify({...data, token})`),
modelled as the submission data paired with the generated token. -/
abbrev QueuedJob : Type := Submission × String

/-- Orchestrator state: the Redis list and a counter modelling the
freshness of `uuidv4()` tokens. -/
structure OrchestratorState where
  queue : List QueuedJob
  nextToken : Nat
deriving DecidableEq, Repr

/-- The token produced by the n-th `uuidv4()` call (fresh by counter). -/
def freshToken (n : Nat) : String := "token-" ++ toString n

/-- The `Orchestrator.submitJob` method: generate a token, merge it into the job,
`LPUSH` the serialized job, return the token. -/
def submitJob (s : Submission) (st : OrchestratorState) : String × OrchestratorState :=
  let token := freshToken st.nextToken
  (token, { queue := lPush st.queue (s, token), nextToken := st.nextToken + 1 })

/-- Fold `submitJob` over a list of submissions, keeping only the state. -/
def enqueueAll (subs : List Submission) (st : OrchestratorState) : OrchestratorState :=
  subs.foldl (fun acc s => (submitJob s acc).2) st

/-- The serialized jobs a list of submissions produces, in submitter
order, when the token counter starts at `n`. -/
def queuedSeq : List Submission → Nat → List QueuedJob
  | [], _ => []
  | s :: rest, n => (s, freshToken n) :: queuedSeq rest (n + 1)

/-- An HTTP response of the batch endpoint: status code and the token
list of the 200 body (empty on an error response). -/
structure BatchResponse where
  status : Nat
  tokens : List String
deriving DecidableEq, Repr

/-- The `for (const submission of submissions)` loop of the
`/submit/batch` handler: each element is validated just before it is
submitted, an invalid element causes an immediate 400 return (with the
already-submitted jobs left on the queue), and a fully valid batch
answers 200 with the tokens in input order. -/
def handleBatchLoop : List Submission → OrchestratorState → List String →
    BatchResponse × OrchestratorState
  | [], st, tokens => ({ status := 200, tokens := tokens }, st)
  | s :: rest, st, tokens =>
    if submissionInvalid s then ({ status := 400, tokens := [] }, st)
    else
      let (token, st1) := submitJob s st
      handleBatchLoop rest st1 (tokens ++ [token])

/-- The `POST /submit/batch` handler of `api.ts` (the missing/empty
`submissions` guard, then the submission loop). -/
def handleBatch (submissions : List Submission) (st : OrchestratorState) :
    BatchResponse × OrchestratorState :=
  if submissions.isEmpty then ({ status := 400, tokens := [] }, st)
  else handleBatchLoop submissions st []

/-! ## Concrete inputs used by witnesses and counterexamples -/

/-- An environment in which every effect succeeds. -/
def envAllOk : ExecEnv :=
  { mkdtempRes := .ok "/tmp/code-abc", writeFileRes := .ok (),
    compileRes := .ok ⟨"", ""⟩, execRes := .ok ⟨"Hello, World!\n", ""⟩ }

/-- A C job whose source does not compile. -/
def jobC : JobData :=
  { source_code := "int main()\x7breturn\x7d", language_id := 50, token := "t-c" }

/-- An environment where the compile command exits non-zero with stderr
(the behaviour of gcc on a syntax error): `execAsync` rejects with
`error.code = 1` and the captured stderr attached. -/
def envCompileFail : ExecEnv :=
  { mkdtempRes := .ok "/tmp/code-c", writeFileRes := .ok (),
    compileRes := .error { code := .num 1, stdout := some "",
                           stderr := some "main.c: error: expected expression",
                           message := "Command failed" },
    execRes := .ok ⟨"", ""⟩ }

/-- A C job that compiles with a warning. -/
def jobCWarn : JobData :=
  { source_code := "int main()\x7b\x7d", language_id := 50, token := "t-warn" }

/-- An environment where the compile command exits zero but prints a
warning on stderr. -/
def envCompileWarn : ExecEnv :=
  { mkdtempRes := .ok "/tmp/code-w", writeFileRes := .ok (),
    compileRes := .ok ⟨"", "warning: unused variable"⟩, execRes := .ok ⟨"", ""⟩ }

/-- A plain Python job. -/
def jobPyW : JobData := { source_code := "print(1)", language_id := 71, token := "t-py" }

/-- An environment where `fs.mkdtemp` throws an errno error (string code). -/
def envMkdtempFail : ExecEnv :=
  { mkdtempRes := .error { code := .str "EACCES",
                           message := "EACCES: permission denied, mkdtemp" },
    writeFileRes := .ok (), compileRes := .ok ⟨"", ""⟩, execRes := .ok ⟨"", ""⟩ }

/-- A Python job with a 2 s budget. -/
def jobPyTimeout : JobData :=
  { source_code := "while True: pass", language_id := 71, token := "t-to",
    timeout := some 2000 }

/-- An environment where the execute command is killed by `timeout`
(exit code 124). -/
def envTimeout : ExecEnv :=
  { mkdtempRes := .ok "/tmp/code-to", writeFileRes := .ok (),
    compileRes := .ok ⟨"", ""⟩,
    execRes := .error { code := .num 124, stdout := some "", stderr := some "",
                        message := "Command failed" } }

/-- A job submitted with explicit zero timeout and zero memory limit. -/
def jobZero : JobData :=
  { source_code := "print(1)", language_id := 71, token := "t-z",
    timeout := some 0, memory_limit := some 0 }

/-- A valid submission. -/
def validSub : Submission :=
  { source_code := some "print(1)", language_id := some 71, problem_id := some "p1" }

/-- A submission lacking `source_code`. -/
def invalidSub : Submission := { language_id := some 71, problem_id := some "p2" }

/-- An orchestrator state with an empty queue. -/
def emptyState : OrchestratorState := { queue := [], nextToken := 0 }

/-! ## Theorems -/

/-- Claim C5 (confirmed): for every job whose `language_id` has no entry in
the language recipe table, the executor returns status `error` with stderr
`Unsupported language_id: N` and exit code 1, and the trace records that no
temp directory or file was created and no command was run. -/
theorem unsupported_language (job : JobData) (env : ExecEnv)
    (h : languageConfigs job.language_id = none) :
    executeCode job env =
      ({ stderr := some ("Unsupported language_id: " ++ toString job.language_id),
         status := "error", exit_code := some (.num 1) },
       { tempDirCreated := false, fileWritten := false, tempDirRemoved := false,
         execCommand := none }) := by
  simp [executeCode, h]

/-- Witness for C5 at `language_id = 9999`. -/
theorem unsupported_language_witness :
    executeCode { source_code := "x", language_id := 9999, token := "t5" } envAllOk =
      ({ stderr := some ("Unsupported language_id: " ++ toString (9999 : Int)),
         status := "error", exit_code := some (.num 1) },
       { tempDirCreated := false, fileWritten := false, tempDirRemoved := false,
         execCommand := none }) :=
  unsupported_language _ envAllOk rfl

/-- Claim C10 (confirmed): for every job submitted with `timeout = 0` or
`memory_limit = 0`, each zero field is treated exactly as if it were
absent, because presence is tested by JavaScript truthiness
(`timeout || config.timeout`, `memory_limit || 512`): a zero timeout makes
the executor behave identically to the job without a timeout field (so the
recipe default applies), and a zero memory limit makes it behave
identically to the job without a memory limit field (so 512 MB applies) —
each independently of the other field's value. -/
theorem zero_treated_as_absent (job : JobData) (env : ExecEnv)
    (hzero : job.timeout = some 0 ∨ job.memory_limit = some 0) :
    (job.timeout = some 0 →
      executeCode job env = executeCode { job with timeout := none } env ∧
      (∀ config, effectiveTimeoutOf job config = config.timeout)) ∧
    (job.memory_limit = some 0 →
      executeCode job env = executeCode { job with memory_limit := none } env ∧
      effectiveMemoryLimitOf job = 512) := by
  obtain ⟨sc, lid, sin, tok, cb, t, m⟩ := job
  constructor
  · intro ht
    simp only at ht
    subst ht
    refine ⟨?_, fun config => ?_⟩
    · simp [executeCode, effectiveTimeoutOf, effectiveMemoryLimitOf, jsOrNum, buildExecCommand]
    · simp [effectiveTimeoutOf, jsOrNum]
  · intro hm
    simp only at hm
    subst hm
    refine ⟨?_, ?_⟩
    · simp [executeCode, effectiveTimeoutOf, effectiveMemoryLimitOf, jsOrNum, buildExecCommand]
    · simp [effectiveMemoryLimitOf, jsOrNum]

/-- Witness for C10 on a concrete job with zero timeout and zero memory
limit, exercising both zero-field conclusions. -/
theorem zero_treated_as_absent_witness :
    (executeCode jobZero envAllOk = executeCode { jobZero with timeout := none } envAllOk ∧
     effectiveTimeoutOf jobZero pythonConfig = pythonConfig.timeout) ∧
    (executeCode jobZero envAllOk = executeCode { jobZero with memory_limit := none } envAllOk ∧
     effectiveMemoryLimitOf jobZero = 512) :=
  ⟨⟨((zero_treated_as_absent jobZero envAllOk (Or.inl rfl)).1 rfl).1,
    ((zero_treated_as_absent jobZero envAllOk (Or.inl rfl)).1 rfl).2 pythonConfig⟩,
   (zero_treated_as_absent jobZero envAllOk (Or.inl rfl)).2 rfl⟩

/-- Claim C4 (confirmed): for every job that reaches the execute phase,
exit code 124 yields status `timeout` with stderr "Execution timed out",
execution time equal to the effective timeout and exit code 124; exit code
137 yields `memory_limit_exceeded` with exit code 137; any other non-zero
exit code yields `runtime_error` carrying that exit code; exit zero (the
promise resolves) yields `completed` with exit code 0. -/
theorem exec_exit_classification (job : JobData) (env : ExecEnv) (config : LanguageConfig)
    (tempDir : String)
    (hconfig : languageConfigs job.language_id = some config)
    (hmk : env.mkdtempRes = .ok tempDir)
    (hwrite : env.writeFileRes = .ok ())
    (hcompile : compilePhase config env = .ok none) :
    (∀ e, env.execRes = .error e → e.code = .num 124 →
      (executeCode job env).1 =
        { stderr := some "Execution timed out", status := "timeout",
          execution_time := some ((effectiveTimeoutOf job config : ℚ)),
          exit_code := some (.num 124) }) ∧
    (∀ e, env.execRes = .error e → e.code = .num 137 →
      (executeCode job env).1.status = "memory_limit_exceeded" ∧
      (executeCode job env).1.exit_code = some (.num 137)) ∧
    (∀ e n, env.execRes = .error e → e.code = .num n → n ≠ 0 → n ≠ 124 → n ≠ 137 →
      (executeCode job env).1.status = "runtime_error" ∧
      (executeCode job env).1.exit_code = some (.num n)) ∧
    (∀ out, env.execRes = .ok out →
      (executeCode job env).1.status = "completed" ∧
      (executeCode job env).1.exit_code = some (.num 0)) := by
  refine ⟨?_, ?_, ?_, ?_⟩
  · intro e he h124
    simp [executeCode, hconfig, hmk, hwrite, hcompile, he, catchHandler, h124]
  · intro e he h137
    simp [executeCode, hconfig, hmk, hwrite, hcompile, he, catchHandler, h137]
  · intro e n he hn h0 h124 h137
    simp [executeCode, hconfig, hmk, hwrite, hcompile, he, catchHandler, hn, h124, h137,
          jsOrVal, JsVal.truthy, h0]
  · intro out hout
    simp [executeCode, hconfig, hmk, hwrite, hcompile, hout]

/-- Witness for C4: a Python job whose execute command is killed with exit
code 124 yields the timeout result with the job timeout as execution time. -/
theorem exec_exit_classification_witness :
    (executeCode jobPyTimeout envTimeout).1 =
      { stderr := some "Execution timed out", status := "timeout",
        execution_time := some ((effectiveTimeoutOf jobPyTimeout pythonConfig : ℚ)),
        exit_code := some (.num 124) } :=
  (exec_exit_classification jobPyTimeout envTimeout pythonConfig "/tmp/code-to"
    rfl rfl rfl rfl).1 _ rfl rfl

/-- Claim C1 counterexample: a compile command that exits non-zero while
printing stderr (the normal gcc failure mode) does NOT produce
`compilation_error` — the rejected promise lands in the catch block and is
classified as `runtime_error`, so the claim's "regardless of the compile
command's exit code" is false on the code. -/
theorem compile_fail_counterexample :
    (executeCode jobC envCompileFail).1.status = "runtime_error" ∧
    (executeCode jobC envCompileFail).1.status ≠ "compilation_error" ∧
    (executeCode jobC envCompileFail).1.stderr = some "main.c: error: expected expression" ∧
    (executeCode jobC envCompileFail).1.exit_code = some (.num 1) := by
  refine ⟨rfl, by decide, rfl, rfl⟩

/-- Claim C1 (corrected): if the compile command exits zero (the promise
resolves) and produced any stderr output, the executor returns
`compilation_error` with that stderr, exit code 1, and execution time
equal to the rounded compile-phase wall-clock duration. (A compile command
exiting non-zero rejects the promise and is classified by the catch block
instead.) -/
theorem compilation_error_on_clean_exit (job : JobData) (env : ExecEnv)
    (config : LanguageConfig) (tempDir : String) (c : String → String) (out : ExecOut)
    (hconfig : languageConfigs job.language_id = some config)
    (hcompile : config.compile = some c)
    (hmk : env.mkdtempRes = .ok tempDir)
    (hwrite : env.writeFileRes = .ok ())
    (hres : env.compileRes = .ok out)
    (hstderr : out.stderr ≠ "") :
    (executeCode job env).1 =
      { stderr := some out.stderr, status := "compilation_error",
        execution_time := some (round2 (hrMs env.compileHr)), exit_code := some (.num 1) } := by
  simp [executeCode, compilePhase, hconfig, hcompile, hmk, hwrite, hres, hstderr]

/-- Witness for C1 (corrected): a C job whose compiler exits zero with a
warning on stderr is reported as a compilation error. -/
theorem compilation_error_on_clean_exit_witness :
    (executeCode jobCWarn envCompileWarn).1 =
      { stderr := some "warning: unused variable", status := "compilation_error",
        execution_time := some (round2 (hrMs envCompileWarn.compileHr)),
        exit_code := some (.num 1) } :=
  compilation_error_on_clean_exit jobCWarn envCompileWarn cConfig "/tmp/code-w" _ _
    rfl rfl rfl rfl rfl (by decide)

/-- Claim C9 counterexample: when `fs.mkdtemp` fails before the execute
phase, the result status is `runtime_error` (not `error`) and the exit
code is the errno string (not 1). -/
theorem pre_execute_fs_counterexample :
    (executeCode jobPyW envMkdtempFail).1.status = "runtime_error" ∧
    (executeCode jobPyW envMkdtempFail).1.status ≠ "error" ∧
    (executeCode jobPyW envMkdtempFail).1.exit_code = some (.str "EACCES") ∧
    (executeCode jobPyW envMkdtempFail).2.tempDirCreated = false := by
  refine ⟨rfl, by decide, rfl, rfl⟩

/-- Claim C9 (corrected): an internal executor failure before the execute
phase (temp-directory creation or source-file write throws) is classified
by the generic catch block: the result has status `runtime_error` (not
`error`), exit code `error.code || 1` and stderr
`error.stderr || error.message`. -/
theorem pre_execute_failure_runtime_error (job : JobData) (env : ExecEnv)
    (config : LanguageConfig) (e : JsError)
    (hconfig : languageConfigs job.language_id = some config)
    (hfail : env.mkdtempRes = .error e ∨
      (∃ tempDir, env.mkdtempRes = .ok tempDir ∧ env.writeFileRes = .error e))
    (h124 : e.code ≠ .num 124) (h137 : e.code ≠ .num 137) :
    (executeCode job env).1.status = "runtime_error" ∧
    (executeCode job env).1.exit_code = some (jsOrVal e.code (.num 1)) ∧
    (executeCode job env).1.stderr = some (jsOrStr e.stderr e.message) := by
  rcases hfail with hmk | ⟨tempDir, hmk, hwr⟩
  · simp [executeCode, hconfig, hmk, catchHandler, h124, h137]
  · simp [executeCode, hconfig, hmk, hwr, catchHandler, h124, h137]

/-- Witness for C9 (corrected) at a concrete failing `fs.mkdtemp`. -/
theorem pre_execute_failure_runtime_error_witness :
    (executeCode jobPyW envMkdtempFail).1.status = "runtime_error" ∧
    (executeCode jobPyW envMkdtempFail).1.exit_code =
      some (jsOrVal (.str "EACCES") (.num 1)) ∧
    (executeCode jobPyW envMkdtempFail).1.stderr =
      some (jsOrStr none "EACCES: permission denied, mkdtemp") :=
  pre_execute_failure_runtime_error jobPyW envMkdtempFail pythonConfig _
    rfl (Or.inl rfl) (by decide) (by decide)

/-- The catch block only ever produces the statuses `timeout`,
`memory_limit_exceeded` and `runtime_error`. -/
theorem catchHandler_status_cases (t : Int) (env : ExecEnv) (e : JsError) :
    (catchHandler t env e).status = "timeout" ∨
    (catchHandler t env e).status = "memory_limit_exceeded" ∨
    (catchHandler t env e).status = "runtime_error" := by
  unfold catchHandler
  by_cases h124 : e.code = .num 124
  · simp [h124]
  · by_cases h137 : e.code = .num 137
    · simp [h124, h137]
    · simp [h124, h137]

/-- When the compile phase returns early, the early result has status
`compilation_error`. -/
theorem compilePhase_some_status (config : LanguageConfig) (env : ExecEnv)
    (r : ExecutionResult) (h : compilePhase config env = .ok (some r)) :
    r.status = "compilation_error" := by
  unfold compilePhase at h
  cases hcc : config.compile with
  | none => rw [hcc] at h; simp at h
  | some c =>
    rw [hcc] at h
    cases hres : env.compileRes with
    | error e => rw [hres] at h; simp at h
    | ok out =>
      rw [hres] at h
      by_cases hs : out.stderr = ""
      · simp [hs] at h
      · simp [hs] at h
        rw [← h]

/-- Claim C7 (confirmed): for every job descriptor and every outcome of
the effectful steps, the executor returns exactly one result (it is a
total function and never throws: every rejected promise is absorbed by
the catch block), the result status lies in the fixed taxonomy, and the
webhook payload built by the worker carries the token copied from the
job. -/
theorem executor_total_token_and_taxonomy (job : JobData) (env : ExecEnv) :
    (webhookPayload job (executeCode job env).1).token = job.token ∧
    (executeCode job env).1.status ∈
      ["completed", "compilation_error", "runtime_error", "timeout",
       "memory_limit_exceeded", "error"] := by
  refine ⟨rfl, ?_⟩
  have hcatch : ∀ (t : Int) (e : JsError) (tr : ExecTrace),
      ((catchHandler t env e, tr) : ExecutionResult × ExecTrace).1.status ∈
      (["completed", "compilation_error", "runtime_error", "timeout",
        "memory_limit_exceeded", "error"] : List String) := by
    intro t e tr
    rcases catchHandler_status_cases t env e with h | h | h <;> simp [h]
  unfold executeCode
  split
  · simp
  · split
    · exact hcatch _ _ _
    · split
      · exact hcatch _ _ _
      · split
        · exact hcatch _ _ _
        · rename_i r heq
          have hr := compilePhase_some_status _ env r heq
          simp [hr]
        · split
          · exact hcatch _ _ _
          · simp

/-- The spec's CPU parsing rule coincides with the implementation's. -/
theorem specParseCpu_eq_parseCpu : specParseCpu = parseCpu := rfl

/-- Claim C3 (confirmed): one scaling tick computes
`clamp(ceil(L / jobs_per_pod), min_pods, max_pods)`, and when the metrics
list is non-empty and the average parsed CPU per pod (sum divided by P)
exceeds 0.8 cores it computes `min(max_pods, baseline + 1)` instead; the
implementation agrees with the spec formula (the hypothesis
`0 < jobs_per_pod` scopes the claim to configurations where integer
ceiling division models JavaScript `Math.ceil`). -/
theorem desiredPods_matches_spec (config : ScalingConfig) (queueLength currentPods : Nat)
    (metrics : List PodMetric) (hjpp0 : 0 < config.jobsPerPod) :
    desiredPods config queueLength currentPods metrics =
      specDesiredPods config queueLength currentPods metrics := by
  unfold desiredPods specDesiredPods specClamp
  rw [show (fun (sum : Option ℚ) (pod : PodMetric) => nanAdd sum (specParseCpu pod.cpu)) =
        (fun sum pod => nanAdd sum (parseCpu pod.cpu)) from rfl]
  cases metrics with
  | nil => simp [totalCpu]
  | cons m ms =>
    rcases Nat.eq_zero_or_pos currentPods with h0 | hpos
    · subst h0
      simp only [totalCpu, List.length_cons, Nat.succ_pos, if_true, gt_iff_lt,
        lt_self_iff_false, if_false, ne_eq, List.cons_ne_nil, not_false_eq_true, true_and]
      cases htot : List.foldl (fun sum pod => nanAdd sum (parseCpu pod.cpu)) (some 0) (m :: ms) with
      | none =>
        simp [nanGt]
        intro hlt
        norm_num at hlt
      | some t => simp [nanGt, Nat.cast_zero, div_zero]
    · simp [totalCpu, hpos]

/-- Witness for C3 at the spec's scaling scenario (queue 37, 2 pods,
0.9 cores per pod). -/
theorem desiredPods_matches_spec_witness :
    desiredPods { minPods := 1, maxPods := 10, jobsPerPod := 5, checkIntervalMs := 10000 }
        37 2 [ { name := "a", cpu := "900m" }, { name := "b", cpu := "900m" } ] =
      specDesiredPods { minPods := 1, maxPods := 10, jobsPerPod := 5, checkIntervalMs := 10000 }
        37 2 [ { name := "a", cpu := "900m" }, { name := "b", cpu := "900m" } ] :=
  desiredPods_matches_spec _ 37 2 _ (by decide)

/-- Claim C6 (confirmed): whenever `min_pods ≤ max_pods`, the desired
replica count of a tick satisfies `min_pods ≤ desired ≤ max_pods` (with
or without the CPU bump), and when it equals the current pod count the
tick patches nothing. -/
theorem desired_bounds_and_noop (config : ScalingConfig) (queueLength currentPods : Nat)
    (metrics : List PodMetric) (hmm : config.minPods ≤ config.maxPods) :
    config.minPods ≤ desiredPods config queueLength currentPods metrics ∧
    desiredPods config queueLength currentPods metrics ≤ config.maxPods ∧
    (desiredPods config queueLength currentPods metrics = currentPods →
      scaleTick config queueLength currentPods metrics = none) := by
  refine ⟨?_, ?_, ?_⟩
  · unfold desiredPods
    dsimp only
    repeat' split
    all_goals omega
  · unfold desiredPods
    dsimp only
    repeat' split
    all_goals omega
  · intro h
    simp [scaleTick, h]

/-- Witness for C6 at an idle tick (empty queue, one pod). -/
theorem desired_bounds_and_noop_witness :
    (1 ≤ desiredPods { minPods := 1, maxPods := 10, jobsPerPod := 5, checkIntervalMs := 10000 }
        0 1 [] ∧
     desiredPods { minPods := 1, maxPods := 10, jobsPerPod := 5, checkIntervalMs := 10000 }
        0 1 [] ≤ 10 ∧
     (desiredPods { minPods := 1, maxPods := 10, jobsPerPod := 5, checkIntervalMs := 10000 }
        0 1 [] = 1 →
      scaleTick { minPods := 1, maxPods := 10, jobsPerPod := 5, checkIntervalMs := 10000 }
        0 1 [] = none)) :=
  desired_bounds_and_noop { minPods := 1, maxPods := 10, jobsPerPod := 5, checkIntervalMs := 10000 }
    0 1 [] (by decide)

/-- If some element of the remaining batch is invalid, the submission loop
answers 400 with no tokens, leaving exactly the valid prefix enqueued. -/
theorem handleBatchLoop_invalid (subs : List Submission) :
    ∀ (st : OrchestratorState) (acc : List String), (∃ s ∈ subs, submissionInvalid s) →
    handleBatchLoop subs st acc =
      ({ status := 400, tokens := [] },
       enqueueAll (subs.takeWhile (fun s => !submissionInvalid s)) st) := by
  induction subs with
  | nil => intro st acc h; simp at h
  | cons s rest ih =>
    intro st acc h
    cases hs : submissionInvalid s with
    | true => simp [handleBatchLoop, hs, List.takeWhile_cons, enqueueAll]
    | false =>
      have hrest : ∃ x ∈ rest, submissionInvalid x := by
        rcases h with ⟨x, hx, hinv⟩
        rcases List.mem_cons.mp hx with rfl | hx2
        · rw [hs] at hinv; exact absurd hinv (by simp)
        · exact ⟨x, hx2, hinv⟩
      rw [handleBatchLoop]
      simp only [hs, Bool.false_eq_true, if_false]
      rw [ih _ _ hrest]
      simp [List.takeWhile_cons, hs, enqueueAll]

/-- Claim C2 counterexample: a batch of a valid submission followed by an
invalid one is rejected with 400 and no tokens, yet the valid submission
was already pushed onto the queue — the queue is NOT unchanged, so the
"no partial batch" part of the claim is false on the code. -/
theorem partial_batch_counterexample :
    (handleBatch [validSub, invalidSub] emptyState).1 = { status := 400, tokens := [] } ∧
    (handleBatch [validSub, invalidSub] emptyState).2.queue ≠ emptyState.queue ∧
    (handleBatch [validSub, invalidSub] emptyState).2.queue = [(validSub, "token-0")] := by
  refine ⟨by decide, by decide, by decide⟩

/-- Claim C2 (corrected): if any element of the batch lacks `source_code`,
`language_id` or `problem_id` (by truthiness), the whole batch is rejected
with HTTP 400 and no tokens are returned — but because validation is
interleaved with submission, every submission strictly before the first
invalid one has already been pushed onto the queue (a partial batch). -/
theorem batch_with_invalid_rejected_partial_enqueue (subs : List Submission)
    (st : OrchestratorState) (h : ∃ s ∈ subs, submissionInvalid s) :
    (handleBatch subs st).1 = { status := 400, tokens := [] } ∧
    (handleBatch subs st).2 =
      enqueueAll (subs.takeWhile (fun s => !submissionInvalid s)) st := by
  have hne : subs ≠ [] := by
    rcases h with ⟨x, hx, _⟩
    exact List.ne_nil_of_mem hx
  rw [handleBatch, if_neg (by simpa using hne)]
  rw [handleBatchLoop_invalid subs st [] h]
  exact ⟨rfl, rfl⟩

/-- Witness for C2 (corrected) on the two-element batch. -/
theorem batch_with_invalid_rejected_partial_enqueue_witness :
    (handleBatch [validSub, invalidSub] emptyState).1 = { status := 400, tokens := [] } ∧
    (handleBatch [validSub, invalidSub] emptyState).2 =
      enqueueAll ([validSub, invalidSub].takeWhile (fun s => !submissionInvalid s)) emptyState :=
  batch_with_invalid_rejected_partial_enqueue _ _ ⟨invalidSub, by decide, by decide⟩

/-- Popping a non-empty Redis list takes its rightmost element. -/
theorem brPop_cons (a : α) (as : List α) :
    brPop (a :: as) = some ((a :: as).getLast (List.cons_ne_nil a as), (a :: as).dropLast) := by
  unfold brPop
  rw [List.getLast?_eq_getLast (a :: as) (List.cons_ne_nil a as)]

/-- Draining by repeated `brPop` yields the list reversed. -/
theorem popOrderAux_eq_reverse : ∀ (n : Nat) (q : List α), q.length ≤ n →
    popOrderAux n q = q.reverse := by
  intro n
  induction n with
  | zero =>
    intro q hq
    have hq0 : q = [] := List.eq_nil_of_length_eq_zero (Nat.le_zero.mp hq)
    subst hq0
    rfl
  | succ n ih =>
    intro q hq
    cases q with
    | nil => rfl
    | cons a as =>
      rw [popOrderAux, brPop_cons]
      dsimp only
      rw [ih ((a :: as).dropLast) (by simp at hq ⊢; omega)]
      have hsplit := List.dropLast_append_getLast (List.cons_ne_nil a as)
      conv_rhs => rw [← hsplit]
      rw [List.reverse_append]
      simp

/-- The drain order of a queue is its reversal (head = left = newest). -/
theorem popOrder_eq_reverse (q : List α) : popOrder q = q.reverse :=
  popOrderAux_eq_reverse _ q le_rfl

/-- Submitting a batch prepends the serialized jobs, newest first. -/
theorem enqueueAll_queue (subs : List Submission) :
    ∀ st : OrchestratorState,
    (enqueueAll subs st).queue = (queuedSeq subs st.nextToken).reverse ++ st.queue := by
  induction subs with
  | nil => intro st; simp [enqueueAll, queuedSeq]
  | cons s rest ih =>
    intro st
    show (enqueueAll rest (submitJob s st).2).queue = _
    rw [ih]
    simp [submitJob, lPush, queuedSeq, List.append_assoc]

/-- Claim C8 (confirmed): the queue is FIFO in producer order — after any
sequence of accepted submissions is enqueued (`LPUSH`), a worker draining
the queue by blocking pop (`BRPOP`) removes the previously queued jobs
first and then the new jobs in exactly the order the submitter provided
them. -/
theorem queue_fifo_producer_order (subs : List Submission) (st : OrchestratorState) :
    popOrder (enqueueAll subs st).queue =
      popOrder st.queue ++ queuedSeq subs st.nextToken := by
  simp [popOrder_eq_reverse, enqueueAll_queue, List.reverse_append, List.reverse_reverse]

end CodeExecution
